import Mathlib

/-!
Verification development for the hiker-web route-planning map application.

The definitions below are a shallow embedding of the client-side state
logic of the repository: the point-setting click handler and route fetch
handler of App (src/unnamed/part_001), the category lookup tables of
RouteSummary.jsx, the radar feed parsers of the two map-component
variants, and the map reconciliation effects of MapComponent.jsx,
modelled as explicit state-passing functions. JS numbers that only flow
through the state are modelled as Int or Nat; absent / null JS values are
modelled with Option.
-/

namespace HikerWeb

/-- A user-selected geographic point, JS shape `{ lng, lat }`. -/
structure Point where
  lng : Int
  lat : Int
deriving DecidableEq, Repr

/-- The `settingPointMode` React state: JS values `null`, `"start"`, `"end"`. -/
inductive SettingMode
  | noneMode
  | startMode
  | endMode
deriving DecidableEq, Repr

/-- One entry of an ORS extras summary list, JS shape
`{ value, distance, amount }`. -/
structure BreakItem where
  value : Int
  distance : Nat
  amount : String
deriving DecidableEq, Repr

/-- One ORS extras block, e.g. `extras.surface`, with its `summary` list. -/
structure ExtraBlock where
  summary : List BreakItem
deriving DecidableEq, Repr

/-- The `properties.extras` block of the first ORS feature. -/
structure Extras where
  surface : Option ExtraBlock
  waytypes : Option ExtraBlock
  traildifficulty : Option ExtraBlock
deriving DecidableEq, Repr

/-- The `properties.summary` block: `{ distance, duration }`. -/
structure SummaryBlock where
  distance : Nat
  duration : Nat
deriving DecidableEq, Repr

/-- The `properties` object of an ORS feature, restricted to the fields
the application reads. -/
structure Props where
  summary : Option SummaryBlock
  extras : Option Extras
  ascent : Option Nat
  descent : Option Nat
deriving DecidableEq, Repr

/-- The `geometry` object of an ORS feature; each coordinate is a JS array
`[lng, lat]` or `[lng, lat, elevation]`, modelled as a list of ints. -/
structure Geometry where
  coordinates : List (List Int)
deriving DecidableEq, Repr

/-- One feature of the ORS GeoJSON response; `properties` and `geometry`
may be absent in a malformed response. -/
structure Feature where
  properties : Option Props
  geometry : Option Geometry
deriving DecidableEq, Repr

/-- The ORS directions response body: a GeoJSON FeatureCollection. -/
structure OrsResponse where
  features : List Feature
deriving DecidableEq, Repr

/-- The `extractedSummary` object built by fetchRoute
(src/unnamed/part_001 lines 335-347). -/
structure ExtractedSummary where
  distance : Option Nat
  duration : Option Nat
  ascent : Nat
  descent : Nat
  surface : Option (List BreakItem)
  waytype : Option (List BreakItem)
  traildifficulty : Option (List BreakItem)
  coordinates : List (List Int)
deriving DecidableEq, Repr

/-- Summary extraction from the first feature (src/unnamed/part_001
lines 326-347): optional chaining becomes Option.map / Option.bind,
`properties.ascent || 0` becomes getD 0, and
`feature.geometry?.coordinates || []` becomes getD []. -/
def extractSummary (feature : Feature) (properties : Props) : ExtractedSummary :=
  { distance := properties.summary.map (fun s => s.distance)
    duration := properties.summary.map (fun s => s.duration)
    ascent := properties.ascent.getD 0
    descent := properties.descent.getD 0
    surface := properties.extras.bind (fun e => e.surface.map (fun b => b.summary))
    waytype := properties.extras.bind (fun e => e.waytypes.map (fun b => b.summary))
    traildifficulty :=
      properties.extras.bind (fun e => e.traildifficulty.map (fun b => b.summary))
    coordinates := (feature.geometry.map (fun g => g.coordinates)).getD [] }

/-- How a route fetch can complete: an HTTP response body (axios success),
a server rejection carrying a status and optional server message
(`err.response`), no response at all (`err.request`), or a request-setup
error (the final `else` branch on `err.message`). -/
inductive FetchOutcome
  | success (resp : OrsResponse)
  | httpError (status : Nat) (serverMsg : Option String)
  | networkError
  | otherError (msg : String)
deriving DecidableEq, Repr

/-- The React state of the App component (src/unnamed/part_001
lines 232-242) that the claims mention, plus the fixed presence of the
ORS API key. -/
structure AppState where
  showInputs : Bool
  settingPointMode : SettingMode
  startPoint : Option Point
  endPoint : Option Point
  routeGeojson : Option OrsResponse
  routeSummary : Option ExtractedSummary
  error : Option String
  isLoading : Bool
  hasApiKey : Bool
deriving DecidableEq, Repr

/-- The map click handler handleMapClick (src/unnamed/part_001
lines 247-266): ignores the click unless the controls are shown, sets the
start point and advances to end mode in start mode, sets the end point
and leaves setting mode in end mode, and does nothing in mode null. -/
def handleMapClick (s : AppState) (coords : Point) : AppState :=
  if !s.showInputs then s
  else
    match s.settingPointMode with
    | .startMode =>
        { s with startPoint := some coords, settingPointMode := .endMode }
    | .endMode =>
        { s with endPoint := some coords, settingPointMode := .noneMode }
    | .noneMode => s

/-- The synchronous prefix of fetchRoute (src/unnamed/part_001
lines 269-302): guard on both points, guard on the API key, then set
loading and clear the error, the previous route and the previous
summary before the request is issued. -/
def fetchRouteStart (s : AppState) : AppState :=
  if s.startPoint = none ∨ s.endPoint = none then
    { s with error := some "Please set both a start and an end point on the map." }
  else if !s.hasApiKey then
    { s with
      error := some "OpenRouteService API Key is missing. Check environment variables." }
  else
    { s with isLoading := true, error := none,
             routeGeojson := none, routeSummary := none }

/-- The server-rejected error message template of fetchRoute
(src/unnamed/part_001 lines 361-366). -/
def httpErrorMessage (status : Nat) (serverMsg : Option String) : String :=
  "Failed to fetch route." ++ " Status: " ++ toString status ++ ". " ++ serverMsg.getD ""

/-- The continuation of fetchRoute after the awaited request settles
(src/unnamed/part_001 lines 316-377): on success with features, the whole
response is stored as the route geojson, then the summary is extracted
when properties are present, otherwise an error is set and only the
summary is cleared; with no features, or on any caught error, a single
classified message is set and both geojson and summary are cleared; the
finally block resets isLoading. -/
def fetchRouteComplete (s : AppState) (o : FetchOutcome) : AppState :=
  let s1 :=
    match o with
    | .success resp =>
      match resp.features with
      | [] =>
          { s with error := some "No route features found in the response.",
                   routeGeojson := none, routeSummary := none }
      | feature :: _ =>
        let s2 := { s with routeGeojson := some resp }
        match feature.properties with
        | some properties =>
            { s2 with routeSummary := some (extractSummary feature properties) }
        | none =>
            { s2 with error := some "Route found, but properties data is missing.",
                      routeSummary := none }
    | .httpError status serverMsg =>
        { s with error := some (httpErrorMessage status serverMsg),
                 routeGeojson := none, routeSummary := none }
    | .networkError =>
        { s with error := some ("Failed to fetch route." ++ " No response received from server."),
                 routeGeojson := none, routeSummary := none }
    | .otherError msg =>
        { s with error := some ("Failed to fetch route." ++ " " ++ msg),
                 routeGeojson := none, routeSummary := none }
  { s1 with isLoading := false }

/-- An observable event of the App component: a map click, the start of a
route fetch, or the arrival of a route fetch result. The id tags which
fetch a completion belongs to; the code itself never consults it, which
is exactly what claim C1 is about. -/
inductive AppEvent
  | click (c : Point)
  | fetchStart (id : Nat)
  | fetchComplete (id : Nat) (o : FetchOutcome)
deriving DecidableEq, Repr

/-- One event applied to the App state. -/
def appStep (s : AppState) : AppEvent → AppState
  | .click c => handleMapClick s c
  | .fetchStart _ => fetchRouteStart s
  | .fetchComplete _ o => fetchRouteComplete s o

/-- A single-threaded execution: the events of the UI event loop applied
in arrival order. -/
def runApp (s : AppState) (es : List AppEvent) : AppState :=
  es.foldl appStep s

/-- The route geojson the completion handler stores for one outcome when
it is the last to be applied. -/
def renderedGeojson (o : FetchOutcome) : Option OrsResponse :=
  match o with
  | .success resp =>
    match resp.features with
    | [] => none
    | _ :: _ => some resp
  | _ => none

/-- The SURFACE_TYPES dictionary of RouteSummary.jsx (lines 39-59),
keyed by the numeric ORS surface id. -/
def SURFACE_TYPES : List (Int × String) :=
  [(0, "Unknown"), (1, "Paved"), (2, "Unpaved"), (3, "Asphalt"), (4, "Concrete"),
   (5, "Cobblestone"), (6, "Metal"), (7, "Wood"), (8, "Compacted Gravel"),
   (9, "Fine Gravel"), (10, "Gravel"), (11, "Dirt"), (12, "Ground"), (13, "Ice"),
   (14, "Paving Stones"), (15, "Sand"), (16, "Woodchips"), (17, "Grass"),
   (18, "Grass Paver")]

/-- The WAYTYPE_TYPES dictionary of RouteSummary.jsx (lines 62-74). -/
def WAYTYPE_TYPES : List (Int × String) :=
  [(0, "Unknown"), (1, "State Road"), (2, "Road"), (3, "Street"), (4, "Path"),
   (5, "Track"), (6, "Cycleway"), (7, "Footway"), (8, "Steps"), (9, "Ferry"),
   (10, "Construction")]

/-- The foot half of the TRAIL_DIFFICULTY dictionary (lines 77-86). -/
def TRAIL_DIFFICULTY_foot : List (Int × String) :=
  [(0, "No tag"), (1, "Hiking (T1)"), (2, "Mountain hiking (T2)"),
   (3, "Demanding mountain hiking (T3)"), (4, "Alpine hiking (T4)"),
   (5, "Demanding alpine hiking (T5)"), (6, "Difficult alpine hiking (T6)")]

/-- The cycling half of the TRAIL_DIFFICULTY dictionary (lines 87-96). -/
def TRAIL_DIFFICULTY_cycling : List (Int × String) :=
  [(0, "No tag"), (1, "MTB: Easy (S0)"), (2, "MTB: Medium (S1)"),
   (3, "MTB: Difficult (S2)"), (4, "MTB: Very difficult (S3)"),
   (5, "MTB: Extremely difficult (S4)"), (6, "MTB: Trials (S5)"),
   (7, "MTB: Insane (S6)")]

/-- The SURFACE_COLORS dictionary (lines 100-121); the `default` key is
kept separate as defaultBarColor below. -/
def SURFACE_COLORS : List (Int × String) :=
  [(0, "#A9A9A9"), (1, "#708090"), (2, "#8B4513"), (3, "#686de0"), (4, "#B0C4DE"),
   (5, "#a4b0be"), (6, "#C0C0C0"), (7, "#a0522d"), (8, "#B8860B"), (9, "#D2B48C"),
   (10, "#ccae62"), (11, "#8c6c3f"), (12, "#8c6c3f"), (13, "#E0FFFF"),
   (14, "#a4b0be"), (15, "#f1d780"), (16, "#D2691E"), (17, "#4caf50"),
   (18, "#9ACD32")]

/-- The WAYTYPE_COLORS dictionary (lines 123-136), without the `default`
key. -/
def WAYTYPE_COLORS : List (Int × String) :=
  [(0, "#A9A9A9"), (1, "#1E90FF"), (2, "#4169E1"), (3, "#6495ED"), (4, "#FFA500"),
   (5, "#DAA520"), (6, "#32CD32"), (7, "#8B4513"), (8, "#708090"), (9, "#00BFFF"),
   (10, "#FF6347")]

/-- The `default` entry of both color maps, the fallback used by
BreakdownBar as `colorMap[value] || colorMap.default`. -/
def defaultBarColor : String := "#cccccc"

/-- getSurfaceType (RouteSummary.jsx lines 139-141):
`SURFACE_TYPES[value] || "Unknown"`. No table label is falsy, so the JS
fallback fires exactly when the key is absent. -/
def getSurfaceType (value : Int) : String :=
  (SURFACE_TYPES.lookup value).getD "Unknown"

/-- getWaytypeName (RouteSummary.jsx lines 144-146). -/
def getWaytypeName (value : Int) : String :=
  (WAYTYPE_TYPES.lookup value).getD "Unknown"

/-- getTrailDifficultyName (RouteSummary.jsx lines 149-153): the foot
dictionary for profiles starting with "foot", the cycling dictionary for
every other profile, with the "Unknown" fallback for absent keys. -/
def getTrailDifficultyName (value : Int) (profile : String) : String :=
  let difficultyDict :=
    if profile.startsWith "foot" then TRAIL_DIFFICULTY_foot else TRAIL_DIFFICULTY_cycling
  (difficultyDict.lookup value).getD "Unknown"

/-- The per-segment color picked by BreakdownBar (RouteSummary.jsx
line 180): `colorMap[value] || colorMap.default`. -/
def barSegmentColor (colorMap : List (Int × String)) (value : Int) : String :=
  (colorMap.lookup value).getD defaultBarColor

/-- One RainViewer radar frame; the application only reads `time`. -/
structure RadarFrame where
  time : Nat
deriving DecidableEq, Repr

/-- The `radar` object of the RainViewer metadata document; `past` and
`nowcast` may each be absent. -/
structure RadarBlock where
  past : Option (List RadarFrame)
  nowcast : Option (List RadarFrame)
deriving DecidableEq, Repr

/-- The RainViewer metadata document; `radar` may be absent. -/
structure RadarResponse where
  radar : Option RadarBlock
deriving DecidableEq, Repr

/-- How a radar metadata request can settle: a response body (possibly
null) or a caught network error. -/
inductive RadarFetchOutcome
  | response (data : Option RadarResponse)
  | networkError
deriving DecidableEq, Repr

/-- The radar state of the App.jsx map-component variant
(src/src/App.jsx lines 50-52). -/
structure RadarFeedState where
  radarTimestamps : List Nat
  selectedTimestamp : Option Nat
  radarError : Option String
deriving DecidableEq, Repr

/-- The initial radar feed state of the App.jsx variant at mount. -/
def initRadarFeedState : RadarFeedState :=
  { radarTimestamps := [], selectedTimestamp := none, radarError := none }

/-- The JS `Array.sort((a, b) => b - a)`: sort the timestamps in
descending order. -/
def sortDesc (l : List Nat) : List Nat :=
  l.insertionSort (· ≥ ·)

/-- fetchTimestamps (src/src/App.jsx lines 66-105) as a state update on
the prior radar feed state. The structure guard
`data && data.radar && data.radar.past` passes for an empty past list
(empty arrays are truthy in JS); the merged nowcast ++ past frames are
sorted descending; the first element, when any, becomes the selected
timestamp, otherwise a no-data error is set; an invalid structure only
sets a parse error; a caught network error clears everything. -/
def fetchTimestampsUpdate (s : RadarFeedState) (o : RadarFetchOutcome) : RadarFeedState :=
  match o with
  | .networkError =>
      { radarTimestamps := [], selectedTimestamp := none,
        radarError := some "Could not load weather data." }
  | .response data =>
    match data with
    | some d =>
      match d.radar with
      | some rb =>
        match rb.past with
        | some pastFrames =>
          let timestamps :=
            sortDesc (((rb.nowcast.getD []) ++ pastFrames).map RadarFrame.time)
          match timestamps with
          | t :: rest =>
              { radarTimestamps := t :: rest, selectedTimestamp := some t,
                radarError := none }
          | [] =>
              { s with radarTimestamps := [],
                       radarError := some "No radar data available." }
        | none => { s with radarError := some "Failed to parse radar data." }
      | none => { s with radarError := some "Failed to parse radar data." }
    | none => { s with radarError := some "Failed to parse radar data." }

/-- The radar state of the MapComponent.jsx timer variant
(src/src/MapComponent.jsx lines 226-228). -/
structure RadarFeed2State where
  radarFrames : List RadarFrame
  currentRadarTimestamp : Option Nat
  radarError : Option String
deriving DecidableEq, Repr

/-- The initial radar state of the MapComponent.jsx variant at mount. -/
def initRadarFeed2State : RadarFeed2State :=
  { radarFrames := [], currentRadarTimestamp := none, radarError := none }

/-- fetchRainViewerData (src/src/MapComponent.jsx lines 242-268) as a
state update: only the past list is consulted
(`response.data?.radar?.past?.length > 0`); its last element becomes the
current timestamp; nowcast frames are never merged in; an empty or
missing past list clears the frames and the timestamp without setting an
error; a caught network error sets one. -/
def fetchRainViewerUpdate (_s : RadarFeed2State) (o : RadarFetchOutcome) : RadarFeed2State :=
  match o with
  | .networkError =>
      { radarFrames := [], currentRadarTimestamp := none,
        radarError := some "Could not load radar data." }
  | .response data =>
    match (data.bind (fun d => d.radar)).bind (fun rb => rb.past) with
    | some (f :: fs) =>
        { radarFrames := f :: fs,
          currentRadarTimestamp := some (((f :: fs).getLast (List.cons_ne_nil f fs)).time),
          radarError := none }
    | some [] =>
        { radarFrames := [], currentRadarTimestamp := none, radarError := none }
    | none =>
        { radarFrames := [], currentRadarTimestamp := none, radarError := none }

/-- The role of a placed marker: the start pin or the end flag. -/
inductive MarkerRole
  | start
  | finish
deriving DecidableEq, Repr

/-- One mapbox marker placed on the map, identified by its role and
position. -/
structure Marker where
  role : MarkerRole
  pos : Point
deriving DecidableEq, Repr

/-- The observable map state owned by MapComponent
(src/src/MapComponent.jsx): the readiness flag set by the load event, the
route source and its current data (none stands for the empty LineString
data), the collection of markers currently on the map together with the
two tracking refs, and the radar inputs and layer. -/
structure MapState where
  mapLoaded : Bool
  routeSourceExists : Bool
  routeData : Option OrsResponse
  mapMarkers : List Marker
  startMarkerRef : Option Marker
  endMarkerRef : Option Marker
  isCloudActive : Bool
  currentRadarTimestamp : Option Nat
  radarLayerPresent : Bool
deriving DecidableEq, Repr

/-- The route update effect (src/src/MapComponent.jsx lines 436-468):
gated on the readiness flag and on the source existing; a geojson with
features replaces the source data, a null or feature-less geojson resets
it to the empty LineString. The fitBounds call touches only the camera
and is outside the modelled state. -/
def updateRouteEffect (s : MapState) (routeGeojson : Option OrsResponse) : MapState :=
  if !s.mapLoaded then s
  else if !s.routeSourceExists then s
  else
    match routeGeojson with
    | some gj =>
        if gj.features.length > 0 then { s with routeData := some gj }
        else { s with routeData := none }
    | none => { s with routeData := none }

/-- The removal prefix of the marker effect (src/src/MapComponent.jsx
lines 516-520): remove the marker each ref tracks from the map, then
null both refs. -/
def removeTrackedMarkers (s : MapState) : MapState :=
  let m1 :=
    match s.startMarkerRef with
    | some m => s.mapMarkers.erase m
    | none => s.mapMarkers
  let m2 :=
    match s.endMarkerRef with
    | some m => m1.erase m
    | none => m1
  { s with mapMarkers := m2, startMarkerRef := none, endMarkerRef := none }

/-- The marker update effect (src/src/MapComponent.jsx lines 514-544):
gated on readiness; unconditionally removes the previously tracked
markers, then places a new start marker when startPoint is set and a new
end marker when endPoint is set. -/
def updateMarkersEffect (s : MapState) (startPoint endPoint : Option Point) : MapState :=
  if !s.mapLoaded then s
  else
    let s1 := removeTrackedMarkers s
    let s2 :=
      match startPoint with
      | some p =>
          { s1 with mapMarkers := s1.mapMarkers ++ [⟨.start, p⟩],
                    startMarkerRef := some ⟨.start, p⟩ }
      | none => s1
    match endPoint with
    | some p =>
        { s2 with mapMarkers := s2.mapMarkers ++ [⟨.finish, p⟩],
                  endMarkerRef := some ⟨.finish, p⟩ }
    | none => s2

/-- manageRadarLayer inside the radar effect (src/src/MapComponent.jsx
lines 338-393): gated on readiness; when the radar toggle is active and a
current timestamp exists the radar source and layer are (re)created below
the route layer, otherwise both are removed. -/
def manageRadarLayer (s : MapState) : MapState :=
  if !s.mapLoaded then s
  else if s.isCloudActive && s.currentRadarTimestamp.isSome then
    { s with radarLayerPresent := true }
  else
    { s with radarLayerPresent := false }

/-- The external events that drive MapComponent: the asynchronous load
event (which creates the empty route source and re-runs every effect with
the props current at that moment), a change of the routeGeojson prop, a
change of the startPoint and endPoint props, a radar toggle click, and a
change of the radar timestamp from the feed. Every React effect re-runs
after the state or prop in its dependency list changes, so each event
applies its effect immediately. -/
inductive MapEvent
  | mapLoad (routeGeojson : Option OrsResponse) (startPoint endPoint : Option Point)
  | routeChange (routeGeojson : Option OrsResponse)
  | markersChange (startPoint endPoint : Option Point)
  | radarToggle
  | radarTimestampChange (t : Option Nat)
deriving DecidableEq, Repr

/-- One event applied to the map state. The load handler itself creates
the route source with empty data; it fires at most once. -/
def mapStep (s : MapState) : MapEvent → MapState
  | .mapLoad g p q =>
      if s.mapLoaded then s
      else
        let s1 := { s with mapLoaded := true, routeSourceExists := true, routeData := none }
        manageRadarLayer (updateMarkersEffect (updateRouteEffect s1 g) p q)
  | .routeChange g => updateRouteEffect s g
  | .markersChange p q => updateMarkersEffect s p q
  | .radarToggle => manageRadarLayer { s with isCloudActive := !s.isCloudActive }
  | .radarTimestampChange t => manageRadarLayer { s with currentRadarTimestamp := t }

/-- The state of a freshly mounted MapComponent: map not yet loaded, no
source, no markers, radar off and hidden. -/
def initMapState : MapState :=
  { mapLoaded := false, routeSourceExists := false, routeData := none,
    mapMarkers := [], startMarkerRef := none, endMarkerRef := none,
    isCloudActive := false, currentRadarTimestamp := none,
    radarLayerPresent := false }

/-- An execution of the map component: events applied in arrival order
from the mount state. -/
def runMap (es : List MapEvent) : MapState :=
  es.foldl mapStep initMapState

/-- A map state the component can actually be in. -/
def ReachableMap (s : MapState) : Prop :=
  ∃ es : List MapEvent, runMap es = s

/-- The number of markers of one role currently on the map. -/
def countRole (r : MarkerRole) (ms : List Marker) : Nat :=
  (ms.filter (fun m => m.role == r)).length

/-- The inductive invariant of the map state machine: the radar layer is
present exactly when the map is loaded, the toggle is active and a
timestamp exists; the markers on the map are exactly the tracked ones,
start first; each ref tracks a marker of its own role; and before the
load event nothing has been placed or created. -/
def MapInv (s : MapState) : Prop :=
  s.radarLayerPresent = (s.mapLoaded && s.isCloudActive && s.currentRadarTimestamp.isSome)
  ∧ s.mapMarkers = s.startMarkerRef.toList ++ s.endMarkerRef.toList
  ∧ (∀ m, s.startMarkerRef = some m → m.role = .start)
  ∧ (∀ m, s.endMarkerRef = some m → m.role = .finish)
  ∧ (s.mapLoaded = false →
      s.startMarkerRef = none ∧ s.endMarkerRef = none
      ∧ s.routeSourceExists = false ∧ s.radarLayerPresent = false)
  ∧ (s.mapLoaded = true → s.routeSourceExists = true)

theorem removeTrackedMarkers_eq (s : MapState)
    (h : s.mapMarkers = s.startMarkerRef.toList ++ s.endMarkerRef.toList) :
    removeTrackedMarkers s =
      { s with mapMarkers := [], startMarkerRef := none, endMarkerRef := none } := by
  unfold removeTrackedMarkers
  cases hs : s.startMarkerRef <;> cases he : s.endMarkerRef <;>
    simp [hs, he] at h ⊢ <;> simp [h, List.erase_cons_head]

theorem updateMarkersEffect_eq (s : MapState) (hl : s.mapLoaded = true)
    (h2 : s.mapMarkers = s.startMarkerRef.toList ++ s.endMarkerRef.toList)
    (p q : Option Point) :
    updateMarkersEffect s p q =
      { s with
          mapMarkers := (p.map fun x => (⟨.start, x⟩ : Marker)).toList
                        ++ (q.map fun x => (⟨.finish, x⟩ : Marker)).toList,
          startMarkerRef := p.map fun x => ⟨.start, x⟩,
          endMarkerRef := q.map fun x => ⟨.finish, x⟩ } := by
  unfold updateMarkersEffect
  rw [removeTrackedMarkers_eq s h2]
  cases p <;> cases q <;> simp [hl]

theorem manageRadarLayer_eq (s : MapState) (hl : s.mapLoaded = true) :
    manageRadarLayer s =
      { s with radarLayerPresent := s.isCloudActive && s.currentRadarTimestamp.isSome } := by
  unfold manageRadarLayer
  cases hc : s.isCloudActive && s.currentRadarTimestamp.isSome <;> simp [hl, hc]

theorem updateRouteEffect_shape (s : MapState) (g : Option OrsResponse) :
    ∃ x, updateRouteEffect s g = { s with routeData := x } := by
  unfold updateRouteEffect
  split
  · exact ⟨s.routeData, rfl⟩
  split
  · exact ⟨s.routeData, rfl⟩
  cases g with
  | none => exact ⟨none, rfl⟩
  | some gj =>
      dsimp only
      split
      · exact ⟨some gj, rfl⟩
      · exact ⟨none, rfl⟩

theorem mapInv_init : MapInv initMapState := by
  simp [MapInv, initMapState]

theorem mapInv_routeData (s : MapState) (h : MapInv s) (x : Option OrsResponse) :
    MapInv { s with routeData := x } := h

theorem mapInv_markers (s : MapState) (hl : s.mapLoaded = true) (h : MapInv s)
    (p q : Option Point) : MapInv (updateMarkersEffect s p q) := by
  obtain ⟨h1, h2, h3, h4, h5, h6⟩ := h
  rw [updateMarkersEffect_eq s hl h2 p q]
  refine ⟨h1, rfl, ?_, ?_, ?_, h6⟩
  · intro m hm
    cases p with
    | none => simp at hm
    | some x => simp at hm; subst hm; rfl
  · intro m hm
    cases q with
    | none => simp at hm
    | some x => simp at hm; subst hm; rfl
  · intro hb; rw [hl] at hb; cases hb

theorem mapInv_after_markers_radar (s : MapState) (hl : s.mapLoaded = true)
    (h2 : s.mapMarkers = s.startMarkerRef.toList ++ s.endMarkerRef.toList)
    (h6 : s.routeSourceExists = true) (p q : Option Point) :
    MapInv (manageRadarLayer (updateMarkersEffect s p q)) := by
  rw [updateMarkersEffect_eq s hl h2 p q]
  rw [manageRadarLayer_eq
      { s with
          mapMarkers := (p.map fun x => (⟨.start, x⟩ : Marker)).toList
                        ++ (q.map fun x => (⟨.finish, x⟩ : Marker)).toList,
          startMarkerRef := p.map fun x => ⟨.start, x⟩,
          endMarkerRef := q.map fun x => ⟨.finish, x⟩ } hl]
  refine ⟨by simp [hl], rfl, ?_, ?_, ?_, fun _ => h6⟩
  · intro m hm
    cases p with
    | none => simp at hm
    | some x => simp at hm; subst hm; rfl
  · intro m hm
    cases q with
    | none => simp at hm
    | some x => simp at hm; subst hm; rfl
  · intro hb; rw [hl] at hb; cases hb

theorem mapInv_manageRadar (s : MapState) (b : Bool) (t : Option Nat) (h : MapInv s) :
    MapInv (manageRadarLayer { s with isCloudActive := b, currentRadarTimestamp := t }) := by
  obtain ⟨h1, h2, h3, h4, h5, h6⟩ := h
  rcases Bool.eq_false_or_eq_true s.mapLoaded with hl | hl
  · rw [manageRadarLayer_eq { s with isCloudActive := b, currentRadarTimestamp := t } hl]
    exact ⟨by simp [hl], h2, h3, h4,
           fun hb => absurd hb (by simp [hl]), h6⟩
  · have hid : manageRadarLayer { s with isCloudActive := b, currentRadarTimestamp := t }
        = { s with isCloudActive := b, currentRadarTimestamp := t } := by
      unfold manageRadarLayer
      simp [hl]
    rw [hid]
    have h5' := h5 hl
    exact ⟨by simp [hl, h5'.2.2.2], h2, h3, h4,
           fun _ => ⟨h5'.1, h5'.2.1, h5'.2.2.1, h5'.2.2.2⟩,
           fun hb => absurd hb (by simp [hl])⟩

theorem mapInv_step (s : MapState) (e : MapEvent) (h : MapInv s) : MapInv (mapStep s e) := by
  cases e with
  | routeChange g =>
      show MapInv (updateRouteEffect s g)
      obtain ⟨x, hx⟩ := updateRouteEffect_shape s g
      rw [hx]; exact mapInv_routeData s h x
  | markersChange p q =>
      show MapInv (updateMarkersEffect s p q)
      rcases Bool.eq_false_or_eq_true s.mapLoaded with hl | hl
      · exact mapInv_markers s hl h p q
      · have hid : updateMarkersEffect s p q = s := by
          unfold updateMarkersEffect; simp [hl]
        rw [hid]; exact h
  | radarToggle =>
      show MapInv (manageRadarLayer { s with isCloudActive := !s.isCloudActive })
      exact mapInv_manageRadar s (!s.isCloudActive) s.currentRadarTimestamp h
  | radarTimestampChange t =>
      show MapInv (manageRadarLayer { s with currentRadarTimestamp := t })
      exact mapInv_manageRadar s s.isCloudActive t h
  | mapLoad g p q =>
      obtain ⟨h1, h2, h3, h4, h5, h6⟩ := h
      rcases Bool.eq_false_or_eq_true s.mapLoaded with hl | hl
      · have hid : mapStep s (.mapLoad g p q) = s := by
          unfold mapStep; simp [hl]
        rw [hid]; exact ⟨h1, h2, h3, h4, h5, h6⟩
      · have hid : mapStep s (.mapLoad g p q) =
            manageRadarLayer (updateMarkersEffect (updateRouteEffect
              { s with mapLoaded := true, routeSourceExists := true, routeData := none } g)
              p q) := by
          unfold mapStep; simp [hl]
        rw [hid]
        obtain ⟨x, hx⟩ := updateRouteEffect_shape
          { s with mapLoaded := true, routeSourceExists := true, routeData := none } g
        rw [hx]
        exact mapInv_after_markers_radar
          { { s with mapLoaded := true, routeSourceExists := true, routeData := none }
            with routeData := x } rfl h2 rfl p q

theorem mapInv_runFrom (es : List MapEvent) (s : MapState) (h : MapInv s) :
    MapInv (es.foldl mapStep s) := by
  induction es generalizing s with
  | nil => exact h
  | cons e rest ih => exact ih _ (mapInv_step s e h)

theorem mapInv_reachable (s : MapState) (h : ReachableMap s) : MapInv s := by
  obtain ⟨es, hes⟩ := h
  subst hes
  exact mapInv_runFrom es initMapState mapInv_init

/-- The route summary the completion handler stores for one outcome when
it is the last to be applied. -/
def renderedSummary (o : FetchOutcome) : Option ExtractedSummary :=
  match o with
  | .success resp =>
    match resp.features with
    | [] => none
    | f :: _ =>
      match f.properties with
      | some properties => some (extractSummary f properties)
      | none => none
  | _ => none

theorem fetchRouteComplete_routeGeojson (s : AppState) (o : FetchOutcome) :
    (fetchRouteComplete s o).routeGeojson = renderedGeojson o := by
  cases o with
  | success resp =>
      cases hf : resp.features with
      | nil => simp [fetchRouteComplete, renderedGeojson, hf]
      | cons f rest =>
          cases hp : f.properties <;>
            simp [fetchRouteComplete, renderedGeojson, hf, hp]
  | httpError status m => simp [fetchRouteComplete, renderedGeojson]
  | networkError => simp [fetchRouteComplete, renderedGeojson]
  | otherError m => simp [fetchRouteComplete, renderedGeojson]

theorem fetchRouteComplete_routeSummary (s : AppState) (o : FetchOutcome) :
    (fetchRouteComplete s o).routeSummary = renderedSummary o := by
  cases o with
  | success resp =>
      cases hf : resp.features with
      | nil => simp [fetchRouteComplete, renderedSummary, hf]
      | cons f rest =>
          cases hp : f.properties <;>
            simp [fetchRouteComplete, renderedSummary, hf, hp]
  | httpError status m => simp [fetchRouteComplete, renderedSummary]
  | networkError => simp [fetchRouteComplete, renderedSummary]
  | otherError m => simp [fetchRouteComplete, renderedSummary]

/-- A sample start point. -/
def pointA : Point := ⟨9, 45⟩

/-- A sample end point. -/
def pointB : Point := ⟨10, 46⟩

/-- Sample feature properties with a summary block. -/
def samplePropsA : Props :=
  { summary := some ⟨5000, 3600⟩, extras := none, ascent := some 10, descent := some 5 }

/-- A sample well-formed directions response. -/
def respA : OrsResponse :=
  ⟨[⟨some samplePropsA, some ⟨[[9, 45, 100], [10, 46, 120]]⟩⟩]⟩

/-- A second sample well-formed directions response with different
geometry. -/
def respB : OrsResponse :=
  ⟨[⟨some samplePropsA, some ⟨[[9, 45, 100], [11, 47, 130]]⟩⟩]⟩

/-- A malformed directions response: one feature with geometry but no
properties object. -/
def noPropsResp : OrsResponse :=
  ⟨[⟨none, some ⟨[[9, 45, 100], [10, 46, 101]]⟩⟩]⟩

/-- An App state with both points chosen and the API key configured,
ready to fetch. -/
def readyState : AppState :=
  { showInputs := true, settingPointMode := .noneMode,
    startPoint := some pointA, endPoint := some pointB,
    routeGeojson := none, routeSummary := none, error := none,
    isLoading := false, hasApiKey := true }

/-- An App state right after the user opened the route panel: controls
shown, mode set to start. -/
def panelOpenState : AppState :=
  { showInputs := true, settingPointMode := .startMode,
    startPoint := none, endPoint := none,
    routeGeojson := none, routeSummary := none, error := none,
    isLoading := false, hasApiKey := true }

/-- An App state with the controls hidden. -/
def hiddenPanelState : AppState :=
  { panelOpenState with showInputs := false }

/-- Claim C1, counterexample: two overlapping fetches where the earlier
one (id 1, result respA) completes after the later one (id 2, result
respB). The code applies results in response-arrival order, so the
earlier fetch result respA ends up displayed, overwriting the later
fetch result respB, contrary to the claim that the earlier result is
discarded. -/
theorem C1_counterexample_staleOverwrite :
    (runApp readyState
      [.fetchStart 1, .fetchStart 2,
       .fetchComplete 2 (.success respB),
       .fetchComplete 1 (.success respA)]).routeGeojson = some respA
    ∧ respA ≠ respB := by decide

/-- Claim C1, amended: fetchRoute has no request tagging, so for two
overlapping fetches the displayed route geometry and summary are those
computed from whichever response arrives last, regardless of which fetch
was initiated last. The hypotheses state that both points and the API
key were present so the two requests were really issued. -/
theorem C1_amended_lastResponseWins (s : AppState) (i j : Nat) (o1 o2 : FetchOutcome)
    (_hs : s.startPoint ≠ none) (_he : s.endPoint ≠ none) (_hk : s.hasApiKey = true) :
    (runApp s [.fetchStart i, .fetchStart j,
        .fetchComplete j o2, .fetchComplete i o1]).routeGeojson = renderedGeojson o1
    ∧ (runApp s [.fetchStart i, .fetchStart j,
        .fetchComplete j o2, .fetchComplete i o1]).routeSummary = renderedSummary o1 := by
  exact ⟨fetchRouteComplete_routeGeojson _ o1, fetchRouteComplete_routeSummary _ o1⟩

/-- Claim C1, witness: the amended theorem applied at the ready state
with the later fetch completing last. -/
theorem C1_amended_lastResponseWins_witness :
    (runApp readyState
      [.fetchStart 1, .fetchStart 2,
       .fetchComplete 2 (.success respA),
       .fetchComplete 1 (.success respB)]).routeGeojson = some respB := by
  have h := C1_amended_lastResponseWins readyState 1 2 (.success respB) (.success respA)
    (by decide) (by decide) (by decide)
  simpa [renderedGeojson, respB, samplePropsA] using h.1

/-- Claim C4, counterexample: for a response whose first feature lacks
properties, fetchRoute reports the error and clears the summary, but the
route geojson was already stored from that same response and is not
cleared, so the geometry is not reset to null as the claim states. -/
theorem C4_counterexample_geometryRetained :
    (fetchRouteComplete (fetchRouteStart readyState) (.success noPropsResp)).routeGeojson
        = some noPropsResp
    ∧ (fetchRouteComplete (fetchRouteStart readyState) (.success noPropsResp)).routeSummary
        = none
    ∧ (fetchRouteComplete (fetchRouteStart readyState) (.success noPropsResp)).error
        = some "Route found, but properties data is missing."
    ∧ some noPropsResp ≠ (none : Option OrsResponse) := by decide

/-- Claim C4, amended: every failed route fetch is classified into
exactly one case with a single descriptive message; network-unreachable,
server-rejected and feature-less-response failures clear both the route
geojson and the summary; a response whose first feature lacks properties
sets an error and clears the summary but retains the geojson just stored
from that response. -/
theorem C4_amended_failureHandling (s : AppState) (o : FetchOutcome) :
    (match o with
     | .success resp =>
        match resp.features with
        | [] =>
            (fetchRouteComplete s o).error = some "No route features found in the response."
            ∧ (fetchRouteComplete s o).routeGeojson = none
            ∧ (fetchRouteComplete s o).routeSummary = none
        | f :: _ =>
          match f.properties with
          | some properties =>
              (fetchRouteComplete s o).routeGeojson = some resp
              ∧ (fetchRouteComplete s o).routeSummary = some (extractSummary f properties)
              ∧ (fetchRouteComplete s o).error = s.error
          | none =>
              (fetchRouteComplete s o).routeGeojson = some resp
              ∧ (fetchRouteComplete s o).routeSummary = none
              ∧ (fetchRouteComplete s o).error
                  = some "Route found, but properties data is missing."
     | .httpError status serverMsg =>
        (fetchRouteComplete s o).error = some (httpErrorMessage status serverMsg)
        ∧ (fetchRouteComplete s o).routeGeojson = none
        ∧ (fetchRouteComplete s o).routeSummary = none
     | .networkError =>
        (fetchRouteComplete s o).error
            = some ("Failed to fetch route." ++ " No response received from server.")
        ∧ (fetchRouteComplete s o).routeGeojson = none
        ∧ (fetchRouteComplete s o).routeSummary = none
     | .otherError msg =>
        (fetchRouteComplete s o).error = some ("Failed to fetch route." ++ " " ++ msg)
        ∧ (fetchRouteComplete s o).routeGeojson = none
        ∧ (fetchRouteComplete s o).routeSummary = none) := by
  cases o with
  | success resp =>
      cases hf : resp.features with
      | nil => simp [fetchRouteComplete, hf]
      | cons f rest =>
          cases hp : f.properties <;> simp [fetchRouteComplete, hf, hp]
  | httpError status serverMsg => simp [fetchRouteComplete]
  | networkError => simp [fetchRouteComplete]
  | otherError msg => simp [fetchRouteComplete]

/-- Claim C6: with the panel open and the mode at settingStart, a click
at A sets the start point and moves to settingEnd, and a following click
at B sets the end point and returns the mode to none, with the start
point kept. -/
theorem C6_clickSequence (s : AppState) (a b : Point)
    (hshow : s.showInputs = true) (hmode : s.settingPointMode = .startMode) :
    (handleMapClick s a).startPoint = some a
    ∧ (handleMapClick s a).settingPointMode = .endMode
    ∧ (handleMapClick (handleMapClick s a) b).startPoint = some a
    ∧ (handleMapClick (handleMapClick s a) b).endPoint = some b
    ∧ (handleMapClick (handleMapClick s a) b).settingPointMode = .noneMode := by
  simp [handleMapClick, hshow, hmode]

/-- Claim C6, witness: the click sequence run from the concrete
panel-open state. -/
theorem C6_clickSequence_witness :
    (handleMapClick panelOpenState pointA).startPoint = some pointA
    ∧ (handleMapClick panelOpenState pointA).settingPointMode = .endMode
    ∧ (handleMapClick (handleMapClick panelOpenState pointA) pointB).startPoint = some pointA
    ∧ (handleMapClick (handleMapClick panelOpenState pointA) pointB).endPoint = some pointB
    ∧ (handleMapClick (handleMapClick panelOpenState pointA) pointB).settingPointMode
        = .noneMode :=
  C6_clickSequence panelOpenState pointA pointB rfl rfl

/-- Claim C10: a map click received while the controls are hidden, or
while the point-setting mode is none, leaves the whole App state
unchanged. -/
theorem C10_clickIgnored (s : AppState) (c : Point)
    (h : s.showInputs = false ∨ s.settingPointMode = .noneMode) :
    handleMapClick s c = s := by
  rcases h with h | h
  · simp [handleMapClick, h]
  · unfold handleMapClick
    rw [h]
    split <;> rfl

/-- Claim C10, witness: a click on the hidden-panel state is a no-op. -/
theorem C10_clickIgnored_witness :
    handleMapClick hiddenPanelState pointA = hiddenPanelState :=
  C10_clickIgnored hiddenPanelState pointA (Or.inl rfl)

/-- A trace that loads the map, feeds a radar timestamp and switches the
radar toggle on. -/
def radarDemoTrace : List MapEvent :=
  [.mapLoad none none none, .radarTimestampChange (some 1700000000), .radarToggle]

/-- A trace that only loads the map. -/
def loadedTrace : List MapEvent :=
  [.mapLoad none none none]

/-- Claim C2: in every reachable state of the map component the radar
layer is never present without a current timestamp, and once the map is
loaded the layer is present exactly when the radar toggle is active and
the current timestamp is non-null, across all four combinations. -/
theorem C2_radarVisibilityIff (s : MapState) (h : ReachableMap s) :
    (s.radarLayerPresent = true → s.currentRadarTimestamp ≠ none)
    ∧ (s.mapLoaded = true →
        (s.radarLayerPresent = true ↔
          (s.isCloudActive = true ∧ s.currentRadarTimestamp ≠ none))) := by
  obtain ⟨h1, -, -, -, -, -⟩ := mapInv_reachable s h
  refine ⟨?_, ?_⟩
  · intro hv hnone
    rw [hv, hnone] at h1
    simp at h1
  · intro hl
    rw [h1, hl]
    simp [Option.isSome_iff_ne_none]

/-- Claim C2, witness: the property evaluated on the concrete reachable
state reached by loading the map, receiving a timestamp and switching
the radar on. -/
theorem C2_radarVisibilityIff_witness :
    ((runMap radarDemoTrace).radarLayerPresent = true ↔
      ((runMap radarDemoTrace).isCloudActive = true
        ∧ (runMap radarDemoTrace).currentRadarTimestamp ≠ none)) :=
  (C2_radarVisibilityIff (runMap radarDemoTrace) ⟨radarDemoTrace, rfl⟩).2 rfl

/-- Claim C3: while the map readiness flag is false every mutation
effect - route source update, marker reconciliation and radar layer
management - is a no-op on the map state. -/
theorem C3_noMutationBeforeReady (s : MapState) (h : s.mapLoaded = false)
    (g : Option OrsResponse) (p q : Option Point) :
    updateRouteEffect s g = s
    ∧ updateMarkersEffect s p q = s
    ∧ manageRadarLayer s = s := by
  refine ⟨?_, ?_, ?_⟩ <;>
    simp [updateRouteEffect, updateMarkersEffect, manageRadarLayer, h]

/-- Claim C3, witness: the three effects applied to the initial
not-yet-loaded state with concrete arguments. -/
theorem C3_noMutationBeforeReady_witness :
    updateRouteEffect initMapState (some respA) = initMapState
    ∧ updateMarkersEffect initMapState (some pointA) (some pointB) = initMapState
    ∧ manageRadarLayer initMapState = initMapState :=
  C3_noMutationBeforeReady initMapState rfl (some respA) (some pointA) (some pointB)

/-- Claim C7: in every reachable state at most one start marker and one
end marker are on the map, and applying the marker reconciliation twice
with the same two points leaves exactly one marker of each role. -/
theorem C7_markerIdempotence (s : MapState) (h : ReachableMap s) (p q : Point) :
    (countRole .start s.mapMarkers ≤ 1 ∧ countRole .finish s.mapMarkers ≤ 1)
    ∧ (s.mapLoaded = true →
        countRole .start
          (updateMarkersEffect (updateMarkersEffect s (some p) (some q))
            (some p) (some q)).mapMarkers = 1
        ∧ countRole .finish
          (updateMarkersEffect (updateMarkersEffect s (some p) (some q))
            (some p) (some q)).mapMarkers = 1) := by
  obtain ⟨-, h2, h3, h4, -, -⟩ := mapInv_reachable s h
  constructor
  · rw [h2]
    cases hs : s.startMarkerRef with
    | none =>
        cases he : s.endMarkerRef with
        | none => simp [countRole]
        | some b =>
            have hb := h4 b he
            simp [countRole, hb]
    | some a =>
        have ha := h3 a hs
        cases he : s.endMarkerRef with
        | none => simp [countRole, ha]
        | some b =>
            have hb := h4 b he
            simp [countRole, ha, hb]
  · intro hl
    rw [updateMarkersEffect_eq s hl h2 (some p) (some q)]
    rw [updateMarkersEffect_eq
      { s with
          mapMarkers := ((some p).map fun x => (⟨.start, x⟩ : Marker)).toList
                        ++ ((some q).map fun x => (⟨.finish, x⟩ : Marker)).toList,
          startMarkerRef := (some p).map fun x => ⟨.start, x⟩,
          endMarkerRef := (some q).map fun x => ⟨.finish, x⟩ } hl rfl (some p) (some q)]
    simp [countRole]

/-- Claim C7, witness: the marker bounds and the double update evaluated
on the concrete loaded state. -/
theorem C7_markerIdempotence_witness :
    countRole .start (runMap loadedTrace).mapMarkers ≤ 1
    ∧ countRole .start
        (updateMarkersEffect (updateMarkersEffect (runMap loadedTrace)
          (some pointA) (some pointB)) (some pointA) (some pointB)).mapMarkers = 1
    ∧ countRole .finish
        (updateMarkersEffect (updateMarkersEffect (runMap loadedTrace)
          (some pointA) (some pointB)) (some pointA) (some pointB)).mapMarkers = 1 :=
  ⟨(C7_markerIdempotence (runMap loadedTrace) ⟨loadedTrace, rfl⟩ pointA pointB).1.1,
   ((C7_markerIdempotence (runMap loadedTrace) ⟨loadedTrace, rfl⟩ pointA pointB).2 rfl).1,
   ((C7_markerIdempotence (runMap loadedTrace) ⟨loadedTrace, rfl⟩ pointA pointB).2 rfl).2⟩

/-- Claim C8: from every reachable loaded state, updating the route with
null resets the route source to the empty geometry, and reconciling the
markers with two null points leaves zero markers on the map. -/
theorem C8_clearingResets (s : MapState) (h : ReachableMap s) (hl : s.mapLoaded = true) :
    (updateRouteEffect s none).routeData = none
    ∧ (updateMarkersEffect s none none).mapMarkers = [] := by
  obtain ⟨-, h2, -, -, -, h6⟩ := mapInv_reachable s h
  constructor
  · have hse := h6 hl
    simp [updateRouteEffect, hl, hse]
  · rw [updateMarkersEffect_eq s hl h2 none none]
    simp

/-- Claim C8, witness: clearing evaluated on the concrete loaded
state. -/
theorem C8_clearingResets_witness :
    (updateRouteEffect (runMap loadedTrace) none).routeData = none
    ∧ (updateMarkersEffect (runMap loadedTrace) none none).mapMarkers = [] :=
  C8_clearingResets (runMap loadedTrace) ⟨loadedTrace, rfl⟩ rfl

theorem lookup_eq_none_of_keys (table : List (Int × String)) (v : Int)
    (h : ∀ p ∈ table, p.1 ≠ v) : table.lookup v = none := by
  induction table with
  | nil => rfl
  | cons hd tl ih =>
      obtain ⟨k, b⟩ := hd
      have hk : k ≠ v := h (k, b) (List.mem_cons_self _ _)
      have hne : (v == k) = false := by
        rw [beq_eq_false_iff_ne]
        exact fun hc => hk hc.symm
      simp only [List.lookup, hne]
      exact ih fun p hp => h p (List.mem_cons_of_mem _ hp)

/-- Claim C9: the label and color mappings are total functions; for any
id outside the table key ranges the human label is Unknown and the
breakdown-bar color is the default gray, for each of the surface,
waytype and trail-difficulty categories and for every profile. -/
theorem C9_unknownFallback (v w d : Int) (profile : String)
    (hv : v < 0 ∨ 18 < v) (hw : w < 0 ∨ 10 < w) (hd : d < 0 ∨ 7 < d) :
    (getSurfaceType v = "Unknown" ∧ barSegmentColor SURFACE_COLORS v = defaultBarColor)
    ∧ (getWaytypeName w = "Unknown" ∧ barSegmentColor WAYTYPE_COLORS w = defaultBarColor)
    ∧ getTrailDifficultyName d profile = "Unknown" := by
  have hsurf : ∀ p ∈ SURFACE_TYPES, 0 ≤ p.1 ∧ p.1 ≤ 18 := by decide
  have hscol : ∀ p ∈ SURFACE_COLORS, 0 ≤ p.1 ∧ p.1 ≤ 18 := by decide
  have hway : ∀ p ∈ WAYTYPE_TYPES, 0 ≤ p.1 ∧ p.1 ≤ 10 := by decide
  have hwcol : ∀ p ∈ WAYTYPE_COLORS, 0 ≤ p.1 ∧ p.1 ≤ 10 := by decide
  have hfoot : ∀ p ∈ TRAIL_DIFFICULTY_foot, 0 ≤ p.1 ∧ p.1 ≤ 7 := by decide
  have hcyc : ∀ p ∈ TRAIL_DIFFICULTY_cycling, 0 ≤ p.1 ∧ p.1 ≤ 7 := by decide
  refine ⟨⟨?_, ?_⟩, ⟨?_, ?_⟩, ?_⟩
  · have hnone := lookup_eq_none_of_keys SURFACE_TYPES v
      (fun p hp => by have := hsurf p hp; omega)
    simp [getSurfaceType, hnone]
  · have hnone := lookup_eq_none_of_keys SURFACE_COLORS v
      (fun p hp => by have := hscol p hp; omega)
    simp [barSegmentColor, hnone]
  · have hnone := lookup_eq_none_of_keys WAYTYPE_TYPES w
      (fun p hp => by have := hway p hp; omega)
    simp [getWaytypeName, hnone]
  · have hnone := lookup_eq_none_of_keys WAYTYPE_COLORS w
      (fun p hp => by have := hwcol p hp; omega)
    simp [barSegmentColor, hnone]
  · have hfn := lookup_eq_none_of_keys TRAIL_DIFFICULTY_foot d
      (fun p hp => by have := hfoot p hp; omega)
    have hcn := lookup_eq_none_of_keys TRAIL_DIFFICULTY_cycling d
      (fun p hp => by have := hcyc p hp; omega)
    unfold getTrailDifficultyName
    cases hsw : profile.startsWith "foot" <;> simp [hsw, hfn, hcn]

/-- Claim C9, witness: the fallbacks evaluated at the concrete unknown
id 99 for the hiking profile. -/
theorem C9_unknownFallback_witness :
    (getSurfaceType 99 = "Unknown" ∧ barSegmentColor SURFACE_COLORS 99 = defaultBarColor)
    ∧ (getWaytypeName 99 = "Unknown" ∧ barSegmentColor WAYTYPE_COLORS 99 = defaultBarColor)
    ∧ getTrailDifficultyName 99 "foot-hiking" = "Unknown" :=
  C9_unknownFallback 99 99 99 "foot-hiking" (by decide) (by decide) (by decide)

theorem sortDesc_head_max (l : List Nat) (x : Nat) (rest : List Nat)
    (h : sortDesc l = x :: rest) : x ∈ l ∧ ∀ y ∈ l, y ≤ x := by
  have hperm : List.Perm (sortDesc l) l := List.perm_insertionSort _ l
  have hsorted : List.Sorted (· ≥ ·) (sortDesc l) := List.sorted_insertionSort _ l
  rw [h] at hperm hsorted
  constructor
  · exact hperm.mem_iff.mp (List.mem_cons_self x rest)
  · intro y hy
    have hy' : y ∈ x :: rest := hperm.mem_iff.mpr hy
    rcases List.mem_cons.mp hy' with hEq | hmem
    · exact le_of_eq hEq
    · exact List.rel_of_sorted_cons hsorted y hmem

/-- Claim C5, counterexample: on a metadata response with both a past
frame at time 10 and a nowcast frame at time 20, fetchRainViewerData (the
radar feed of the MapComponent.jsx variant, a cited source of the claim)
exposes 10, the last past frame, although the merged frame list contains
the strictly newer timestamp 20 - so the exposed current timestamp is not
the maximum of the merged past and nowcast lists. -/
theorem C5_counterexample_nowcastIgnored :
    (fetchRainViewerUpdate initRadarFeed2State
        (.response (some ⟨some ⟨some [⟨10⟩], some [⟨20⟩]⟩⟩))).currentRadarTimestamp
      = some 10
    ∧ (20 : Nat) ∈ (([⟨20⟩] ++ [⟨10⟩] : List RadarFrame).map RadarFrame.time)
    ∧ ¬ (20 : Nat) ≤ 10 := by decide

/-- Claim C5, amended: fetchTimestamps (the App.jsx variant) merges past
and nowcast when both are present and exposes the maximum of the merged
timestamps; fetchRainViewerData (the MapComponent.jsx variant) ignores
nowcast and exposes the last element of the past list; and for the
response with both lists empty, both variants leave the current timestamp
null and report no data, without crashing. -/
theorem C5_amended_radarFeeds (s : RadarFeedState) (past nowcast : List RadarFrame)
    (f : RadarFrame) (pastRest : List RadarFrame) :
    (∀ t rest, sortDesc ((nowcast ++ past).map RadarFrame.time) = t :: rest →
        (fetchTimestampsUpdate s
            (.response (some ⟨some ⟨some past, some nowcast⟩⟩))).selectedTimestamp = some t
        ∧ t ∈ (nowcast ++ past).map RadarFrame.time
        ∧ ∀ y ∈ (nowcast ++ past).map RadarFrame.time, y ≤ t)
    ∧ (fetchRainViewerUpdate initRadarFeed2State
          (.response (some ⟨some ⟨some (f :: pastRest), some nowcast⟩⟩))).currentRadarTimestamp
        = some (((f :: pastRest).getLast (List.cons_ne_nil f pastRest)).time)
    ∧ fetchTimestampsUpdate initRadarFeedState
          (.response (some ⟨some ⟨some [], some []⟩⟩))
        = { radarTimestamps := [], selectedTimestamp := none,
            radarError := some "No radar data available." }
    ∧ fetchRainViewerUpdate initRadarFeed2State
          (.response (some ⟨some ⟨some [], some []⟩⟩))
        = { radarFrames := [], currentRadarTimestamp := none, radarError := none } := by
  refine ⟨?_, rfl, by decide, by decide⟩
  intro t rest hsort
  have hmax := sortDesc_head_max ((nowcast ++ past).map RadarFrame.time) t rest hsort
  refine ⟨?_, hmax.1, hmax.2⟩
  simp only [fetchTimestampsUpdate, Option.getD_some, hsort]

/-- Claim C5, witness: the amended theorem evaluated on the concrete
response with past frame 10 and nowcast frame 20: the merging variant
selects 20, the past-only variant selects 10. -/
theorem C5_amended_radarFeeds_witness :
    (fetchTimestampsUpdate initRadarFeedState
        (.response (some ⟨some ⟨some [⟨10⟩], some [⟨20⟩]⟩⟩))).selectedTimestamp = some 20
    ∧ (fetchRainViewerUpdate initRadarFeed2State
        (.response (some ⟨some ⟨some [⟨10⟩], some [⟨20⟩]⟩⟩))).currentRadarTimestamp
      = some 10 := by
  have h := C5_amended_radarFeeds initRadarFeedState [⟨10⟩] [⟨20⟩] ⟨10⟩ []
  exact ⟨(h.1 20 [10] (by decide)).1, by simpa using h.2.1⟩

end HikerWeb
